import Mathlib

/-!
Verification of the learn-vulkan-rs repository (two vulkano example programs:
a buffer-to-buffer copy scenario and a multiply-by-12 compute-dispatch scenario)
against its natural-language specification. The host-side program logic is
embedded from the Rust sources; the opaque GPU backend (execution of submitted
command lists) is modelled from the spec, which treats it as an external
collaborator.
-/

set_option autoImplicit false

namespace LearnVulkan

/-- Queue capability flags, as in vulkano's `QueueFlags` bitflags; only the
three capabilities named by the spec matter here. -/
structure QueueFlags where
  graphics : Bool
  compute : Bool
  transfer : Bool
  deriving DecidableEq, Repr

/-- Bitflag containment: `a.contains b` holds when every flag set in `b` is
set in `a` (vulkano's `QueueFlags::contains`). -/
def QueueFlags.contains (a b : QueueFlags) : Bool :=
  (!b.graphics || a.graphics) && (!b.compute || a.compute) && (!b.transfer || a.transfer)

/-- The required capability in the copy scenario (`QueueFlags::GRAPHICS`). -/
def QueueFlags.GRAPHICS : QueueFlags := ⟨true, false, false⟩

/-- The required capability in the compute scenario (`QueueFlags::COMPUTE`). -/
def QueueFlags.COMPUTE : QueueFlags := ⟨false, true, false⟩

/-- A physical device is characterised here by its queue-family properties:
one `QueueFlags` per queue family, in enumeration order. -/
structure PhysicalDevice where
  queueFamilyProperties : List QueueFlags
  deriving DecidableEq, Repr

/-- Rust's `Iterator::position(pred)`: index of the first element satisfying
the predicate, `none` when there is none. -/
def position {α : Type} (p : α → Bool) : List α → Option Nat
  | [] => none
  | x :: xs => if p x then some 0 else (position p xs).map (· + 1)

/-- Device selection as written in both `main.rs` files:
`instance.enumerate_physical_devices().skip(1).next()` — the second
enumerated device, unconditionally. -/
def selectPhysicalDevice (devices : List PhysicalDevice) : Option PhysicalDevice :=
  (devices.drop 1).head?

/-- Queue-family selection as written in both `main.rs` files:
`queue_family_properties().iter().enumerate().position(|(_, q)|
q.queue_flags.contains(required))`. -/
def queue_family_index (d : PhysicalDevice) (required : QueueFlags) : Option Nat :=
  position (fun q => q.contains required) d.queueFamilyProperties

/-- A device exposing one all-capable queue family; used as concrete input. -/
def capableDevice : PhysicalDevice := ⟨[⟨true, true, true⟩]⟩

/-- A backend is capable (for a required capability) when at least one of its
queue families contains that capability. -/
def capableFor (required : QueueFlags) (d : PhysicalDevice) : Bool :=
  d.queueFamilyProperties.any (fun q => q.contains required)

theorem position_spec {α : Type} (p : α → Bool) (l : List α) (i : Nat)
    (h : position p l = some i) :
    (∃ x, l[i]? = some x ∧ p x = true) ∧ ∀ j, j < i → ∀ y, l[j]? = some y → p y = false := by
  induction l generalizing i with
  | nil => simp [position] at h
  | cons x xs ih =>
    by_cases hx : p x = true
    · simp [position, hx] at h
      subst h
      refine ⟨⟨x, by simp, hx⟩, ?_⟩
      intro j hj
      omega
    · simp [position, hx] at h
      obtain ⟨i0, hi0, hsum⟩ := h
      obtain ⟨⟨y, hy, hpy⟩, hmin⟩ := ih i0 hi0
      subst hsum
      refine ⟨⟨y, by simpa using hy, hpy⟩, ?_⟩
      intro j hj z hz
      cases j with
      | zero =>
        simp at hz
        subst hz
        simpa using hx
      | succ j0 =>
        simp at hz
        exact hmin j0 (by omega) z hz

/-- C3 counterexample: an enumeration consisting of a single fully capable
device. The enumeration yields a capable backend, yet
`enumerate_physical_devices().skip(1).next()` selects nothing, refuting the
claim that a device is selected whenever at least one capable backend is
enumerated, and refuting the absence of positional skipping. -/
theorem select_device_skip_counterexample :
    capableFor QueueFlags.GRAPHICS capableDevice = true ∧
    selectPhysicalDevice [capableDevice] = none := by
  decide

/-- C3 (amended): device selection applies no capability filter and skips the
first enumerated device: it returns exactly the second element of the
enumeration, hence succeeds precisely when at least two devices are
enumerated. Queue-family capability filtering happens only afterwards, on the
one selected device. -/
theorem select_device_positional (devices : List PhysicalDevice) :
    selectPhysicalDevice devices = devices[1]? ∧
    ((selectPhysicalDevice devices).isSome ↔ 2 ≤ devices.length) := by
  match devices with
  | [] => simp [selectPhysicalDevice]
  | [a] => simp [selectPhysicalDevice]
  | a :: b :: t => simp [selectPhysicalDevice]

/-- C4: whenever queue-family selection returns index `i`, the family at `i`
contains the required capability and no family at a smaller index does: the
chosen family is the first (lowest-index) capable one in enumeration order,
with no scoring heuristic. -/
theorem queue_family_index_first (d : PhysicalDevice) (required : QueueFlags) (i : Nat)
    (h : queue_family_index d required = some i) :
    (∃ q, d.queueFamilyProperties[i]? = some q ∧ q.contains required = true) ∧
    ∀ j, j < i → ∀ q, d.queueFamilyProperties[j]? = some q → q.contains required = false :=
  position_spec _ _ _ h

/-- Witness for C4 at a concrete device whose first family is compute-only and
whose second is graphics-capable: the graphics requirement selects index 1. -/
theorem queue_family_index_first_witness :
    queue_family_index ⟨[⟨false, true, false⟩, ⟨true, true, true⟩]⟩ QueueFlags.GRAPHICS
      = some 1 ∧
    ((∃ q, (PhysicalDevice.mk [⟨false, true, false⟩, ⟨true, true, true⟩]).queueFamilyProperties[1]?
        = some q ∧ q.contains QueueFlags.GRAPHICS = true) ∧
      ∀ j, j < 1 → ∀ q,
        (PhysicalDevice.mk [⟨false, true, false⟩, ⟨true, true, true⟩]).queueFamilyProperties[j]?
          = some q → q.contains QueueFlags.GRAPHICS = false) :=
  ⟨by decide, queue_family_index_first _ QueueFlags.GRAPHICS 1 (by decide)⟩

/-- Buffer usage flags (vulkano `BufferUsage` bitflags, restricted to the
three flags the programs use). -/
structure BufferUsage where
  transferSrc : Bool
  transferDst : Bool
  storageBuffer : Bool
  deriving DecidableEq, Repr

/-- Bitflag containment for buffer usage flags. -/
def BufferUsage.contains (a b : BufferUsage) : Bool :=
  (!b.transferSrc || a.transferSrc) && (!b.transferDst || a.transferDst) &&
    (!b.storageBuffer || a.storageBuffer)

/-- The usage of scenario 1's source buffer. -/
def BufferUsage.TRANSFER_SRC : BufferUsage := ⟨true, false, false⟩

/-- The usage of scenario 1's destination buffer. -/
def BufferUsage.TRANSFER_DST : BufferUsage := ⟨false, true, false⟩

/-- The usage of scenario 2's data buffer. -/
def BufferUsage.STORAGE_BUFFER : BufferUsage := ⟨false, false, true⟩

/-- Host-access pattern requested at allocation (vulkano `MemoryUsage`). -/
inductive MemoryUsage where
  | Upload
  | Download
  | DeviceOnly
  deriving DecidableEq, Repr

/-- A buffer: usage flags, host-access pattern, and element contents
(element values; `i32` in scenario 1, `u32` in scenario 2, both embedded
as `Nat` with wraparound made explicit where it matters). -/
structure Buffer where
  usage : BufferUsage
  memoryUsage : MemoryUsage
  contents : List Nat
  deriving DecidableEq, Repr

/-- Scenario 1 source contents: `(0..64).collect()`. -/
def source_content : List Nat := List.range 64

/-- Scenario 1 source buffer: `TRANSFER_SRC` usage, `Upload` host access. -/
def source : Buffer := ⟨BufferUsage.TRANSFER_SRC, MemoryUsage.Upload, source_content⟩

/-- Scenario 1 destination contents: `(0..64).map(|_| 0)`. -/
def destination_content : List Nat := List.replicate 64 0

/-- Scenario 1 destination buffer: `TRANSFER_DST` usage, `Download` host
access. -/
def destination : Buffer := ⟨BufferUsage.TRANSFER_DST, MemoryUsage.Download, destination_content⟩

/-- Scenario 2 data-buffer contents: `0..65536u32`. -/
def data_iter : List Nat := List.range 65536

/-- Scenario 2 data buffer: `STORAGE_BUFFER` usage, `Upload` host access. -/
def data_buffer : Buffer := ⟨BufferUsage.STORAGE_BUFFER, MemoryUsage.Upload, data_iter⟩

/-- Modelled from the spec: execution of `copy(src, dst)` by the opaque GPU
backend (vulkano's `copy_buffer` recording plus submitted execution, which is
external to this repository). It requires `src.usage ⊇ TransferSrc`,
`dst.usage ⊇ TransferDst` and `src.size == dst.size`, and afterwards the
destination holds the source's contents. -/
def copyBuffer (src dst : Buffer) : Option Buffer :=
  if src.usage.contains BufferUsage.TRANSFER_SRC &&
      dst.usage.contains BufferUsage.TRANSFER_DST &&
      src.contents.length == dst.contents.length then
    some { dst with contents := src.contents }
  else
    none

/-- Modelled from the spec: `read(buffer)` requires the buffer's host access
to include Download (or Upload) and returns a view of its contents;
`DeviceOnly` memory is not host accessible. -/
def read (b : Buffer) : Option (List Nat) :=
  match b.memoryUsage with
  | MemoryUsage.Upload => some b.contents
  | MemoryUsage.Download => some b.contents
  | MemoryUsage.DeviceOnly => none

/-- C1: for every pair of host-accessible buffers of equal size with
TransferSrc usage on the source and TransferDst usage on the destination,
the recorded-submitted-awaited copy succeeds and reading the destination
afterwards yields exactly what reading the source yields. -/
theorem copy_roundtrip (src dst : Buffer)
    (hsrc : src.usage.contains BufferUsage.TRANSFER_SRC = true)
    (hdst : dst.usage.contains BufferUsage.TRANSFER_DST = true)
    (hsize : src.contents.length = dst.contents.length)
    (hsrcHost : src.memoryUsage ≠ MemoryUsage.DeviceOnly)
    (hdstHost : dst.memoryUsage ≠ MemoryUsage.DeviceOnly) :
    ∃ dst2, copyBuffer src dst = some dst2 ∧
      read dst2 = read src ∧ read dst2 = some src.contents := by
  refine ⟨{ dst with contents := src.contents }, ?_, ?_, ?_⟩
  · simp [copyBuffer, hsrc, hdst, hsize]
  · cases hs : src.memoryUsage <;> cases hd : dst.memoryUsage <;>
      simp_all [read]
  · cases hd : dst.memoryUsage <;> simp_all [read]

/-- Witness for C1: the literal scenario of `vulkano-rs-guide-1`: source
initialized to `[0..64)`, destination to 64 zeros; after the copy, reading
the destination yields `[0..64)`, the same as reading the source. -/
theorem copy_roundtrip_witness :
    ∃ dst2, copyBuffer source destination = some dst2 ∧
      read dst2 = read source ∧ read dst2 = some (List.range 64) := by
  have h := copy_roundtrip source destination (by decide) (by decide)
    (by simp [source, destination, source_content, destination_content])
    (by decide) (by decide)
  simpa [source, source_content] using h

/-- Operations recorded into a command list. Buffers are referred to by index
into the scenario's buffer store; a descriptor set is identified by the index
of the buffer it binds (scenario 2 binds `data_buffer` at binding 0). -/
inductive Op where
  | copy (src dst : Nat)
  | bindPipeline
  | bindResources (set : Nat)
  | dispatch (workGroupCounts : Nat × Nat × Nat)
  deriving DecidableEq, Repr

/-- Scenario 1 buffer store: source and destination. -/
def scenario1Buffers : List Buffer := [source, destination]

/-- Scenario 1 recorded command list: a single buffer-to-buffer copy. -/
def scenario1CommandList : List Op := [Op.copy 0 1]

/-- Scenario 2 buffer store: the one data buffer. -/
def scenario2Buffers : List Buffer := [data_buffer]

/-- Scenario 2 recorded command list: `bind_pipeline_compute`,
`bind_descriptor_sets`, `dispatch([1024, 1, 1])`, in source order. -/
def scenario2CommandList : List Op :=
  [Op.bindPipeline, Op.bindResources 0, Op.dispatch (1024, 1, 1)]

/-- Usage requirement each operation places on the buffers it references
(spec invariant): a copy source carries TransferSrc, a copy destination
TransferDst with matching sizes, and a buffer bound for a compute dispatch
carries Storage. -/
def opUsageOk (store : List Buffer) : Op → Bool
  | Op.copy s d =>
    match store[s]?, store[d]? with
    | some sb, some db =>
      sb.usage.contains BufferUsage.TRANSFER_SRC &&
        db.usage.contains BufferUsage.TRANSFER_DST &&
        (sb.contents.length == db.contents.length)
    | _, _ => false
  | Op.bindPipeline => true
  | Op.bindResources s =>
    match store[s]? with
    | some b => b.usage.contains BufferUsage.STORAGE_BUFFER
    | none => false
  | Op.dispatch _ => true

/-- C5: every operation recorded in either scenario satisfies the usage
invariant: the copy's source carries TransferSrc, its destination carries
TransferDst with the same size (64 elements), and the buffer bound for the
compute dispatch carries Storage. -/
theorem recorded_ops_usage_ok :
    scenario1CommandList.all (opUsageOk scenario1Buffers) = true ∧
    scenario2CommandList.all (opUsageOk scenario2Buffers) = true ∧
    source.contents.length = 64 ∧ destination.contents.length = 64 := by
  refine ⟨by decide, ?_, by decide, by decide⟩
  simp [scenario2CommandList, scenario2Buffers, opUsageOk, data_buffer]
  decide

/-- Binding-order validity of a command list (spec CommandList invariant),
scanning in recorded order while tracking whether a pipeline and resources
are currently bound: `bindResources` requires a pipeline already bound, and
`dispatch` requires both a pipeline and resources already bound. -/
def checkBindings : Bool → Bool → List Op → Bool
  | _, _, [] => true
  | _, r, Op.bindPipeline :: rest => checkBindings true r rest
  | p, _, Op.bindResources _ :: rest => p && checkBindings p true rest
  | p, r, Op.dispatch _ :: rest => p && r && checkBindings p r rest
  | p, r, Op.copy _ _ :: rest => checkBindings p r rest

/-- C6: scenario 2's command list records bind-pipeline first, then
bind-resources, then dispatch, so at the dispatch a pipeline and resources
are bound and the bound state is valid. -/
theorem compute_bindings_ordered :
    scenario2CommandList[0]? = some Op.bindPipeline ∧
    scenario2CommandList[1]? = some (Op.bindResources 0) ∧
    scenario2CommandList[2]? = some (Op.dispatch (1024, 1, 1)) ∧
    checkBindings false false scenario2CommandList = true := by
  decide

/-- Host-side events of a scenario's `main`, in program order: submitting the
built command buffer (`then_execute` + `then_signal_fence_and_flush`),
blocking on the fence (`future.wait(None)`), and reading back a buffer
(referred to by store index). -/
inductive HostEvent where
  | submit
  | waitFence
  | readBuf (b : Nat)
  deriving DecidableEq, Repr

/-- The state of the one submission future of a scenario. -/
inductive FutureState where
  | idle
  | pending
  | signaled
  deriving DecidableEq, Repr

/-- Whether the future is in the `Pending` state. -/
def FutureState.isPending : FutureState → Bool
  | FutureState.pending => true
  | _ => false

/-- Modelled from the spec: `submit` returns a `Pending` future;
`wait(None)` blocks the calling thread until the future is `Signaled`, so
when the wait event has returned the future is `Signaled`; `read` performs no
implicit synchronization and leaves the future state unchanged. -/
def stepFuture : FutureState → HostEvent → FutureState
  | _, HostEvent.submit => FutureState.pending
  | _, HostEvent.waitFence => FutureState.signaled
  | s, HostEvent.readBuf _ => s

/-- Scans a host trace tracking the future state; holds when no read of a
write-target buffer happens while the future is `Pending`. -/
def readsSynchronized (writeTargets : List Nat) : FutureState → List HostEvent → Bool
  | _, [] => true
  | s, e :: rest =>
    (match e with
      | HostEvent.readBuf b => !(writeTargets.contains b && s.isPending)
      | _ => true) &&
    readsSynchronized writeTargets (stepFuture s e) rest

/-- Scenario 1 host trace (`main.rs` lines 114-125): submit, wait, read the
source (index 0), read the destination (index 1). -/
def scenario1Trace : List HostEvent :=
  [HostEvent.submit, HostEvent.waitFence, HostEvent.readBuf 0, HostEvent.readBuf 1]

/-- Scenario 2 host trace (`main.rs` lines 194-207): submit, wait, read the
data buffer (index 0). -/
def scenario2Trace : List HostEvent :=
  [HostEvent.submit, HostEvent.waitFence, HostEvent.readBuf 0]

/-- C7: in both scenarios every read of a buffer the submission writes (the
copy destination in scenario 1, the storage buffer in scenario 2) happens
only after `future.wait(None)` has returned, i.e. while the future is
`Signaled` rather than `Pending`; `read` itself never changes the future
state (no implicit synchronization). -/
theorem reads_after_wait :
    readsSynchronized [1] FutureState.idle scenario1Trace = true ∧
    readsSynchronized [0] FutureState.idle scenario2Trace = true ∧
    ∀ s b, stepFuture s (HostEvent.readBuf b) = s := by
  refine ⟨by decide, by decide, ?_⟩
  intro s b
  rfl

/-- A logical queue handed out at device creation, associated with one queue
family index (vulkano `Queue::queue_family_index`). -/
structure Queue where
  queueFamilyIndex : Nat
  deriving DecidableEq, Repr

/-- Modelled from the spec: device creation activates exactly the queue
families named in `queue_create_infos` and yields one queue per entry, each
associated with its requested family index. -/
def deviceQueues (queue_create_infos : List Nat) : List Queue :=
  queue_create_infos.map Queue.mk

/-- Scenario 1 command-buffer setup, embedded from `vulkano-rs-guide-1`:
the selected queue-family index is passed to `Device::new` (one
`QueueCreateInfo`), the first returned queue is taken, and
`AutoCommandBufferBuilder::primary` is created with the same
`queue_family_index` variable. Returns the builder's queue-family index
paired with the queue later passed to `then_execute`. -/
def scenario1BuilderAndQueue (d : PhysicalDevice) : Option (Nat × Queue) :=
  (queue_family_index d QueueFlags.GRAPHICS).bind fun qfi =>
    (deviceQueues [qfi]).head?.map fun q => (qfi, q)

/-- Scenario 2 command-buffer setup, embedded from `vulkano-rs-guide-2`: the
same device-creation path with the compute requirement, but the builder is
created with `queue.queue_family_index()` taken from the obtained queue. -/
def scenario2BuilderAndQueue (d : PhysicalDevice) : Option (Nat × Queue) :=
  (queue_family_index d QueueFlags.COMPUTE).bind fun qfi =>
    (deviceQueues [qfi]).head?.map fun q => (q.queueFamilyIndex, q)

/-- C10: in both scenarios, whenever setup succeeds, the command-buffer
builder is created for exactly the queue family of the queue the command
buffer is later submitted to. -/
theorem builder_family_matches_queue (d : PhysicalDevice) (bf1 bf2 : Nat) (q1 q2 : Queue)
    (h1 : scenario1BuilderAndQueue d = some (bf1, q1))
    (h2 : scenario2BuilderAndQueue d = some (bf2, q2)) :
    bf1 = q1.queueFamilyIndex ∧ bf2 = q2.queueFamilyIndex := by
  constructor
  · cases hq : queue_family_index d QueueFlags.GRAPHICS with
    | none => simp [scenario1BuilderAndQueue, hq] at h1
    | some qfi =>
      simp [scenario1BuilderAndQueue, hq, deviceQueues] at h1
      obtain ⟨hbf, hqq⟩ := h1
      subst hbf
      subst hqq
      rfl
  · cases hq : queue_family_index d QueueFlags.COMPUTE with
    | none => simp [scenario2BuilderAndQueue, hq] at h2
    | some qfi =>
      simp [scenario2BuilderAndQueue, hq, deviceQueues] at h2
      obtain ⟨hbf, hqq⟩ := h2
      subst hbf
      subst hqq
      rfl

/-- Witness for C10 at the concrete all-capable single-family device: both
setups select family 0 and the builder's family equals the queue's. -/
theorem builder_family_matches_queue_witness :
    scenario1BuilderAndQueue capableDevice = some (0, Queue.mk 0) ∧
    scenario2BuilderAndQueue capableDevice = some (0, Queue.mk 0) ∧
    (0 = (Queue.mk 0).queueFamilyIndex ∧ 0 = (Queue.mk 0).queueFamilyIndex) :=
  ⟨by decide, by decide,
    builder_family_matches_queue capableDevice 0 0 (Queue.mk 0) (Queue.mk 0)
      (by decide) (by decide)⟩

/-- The shader's declared local work-group size in x
(GLSL `layout(local_size_x = 64, local_size_y = 1, local_size_z = 1) in;`). -/
def local_size_x : Nat := 64

/-- The work-group counts passed to `dispatch` in scenario 2. -/
def work_group_counts : Nat × Nat × Nat := (1024, 1, 1)

/-- One invocation's arithmetic, from the embedded GLSL shader source:
`buf.data[idx] *= 12;` on a `uint`, i.e. multiplication by 12 modulo 2^32. -/
def shaderStep (v : Nat) : Nat := v * 12 % 2 ^ 32

/-- Effect of the invocation with global id `idx`, from the shader source:
`uint idx = gl_GlobalInvocationID.x; buf.data[idx] *= 12;` updates only
element `idx`. -/
def runInvocation (data : List Nat) (idx : Nat) : List Nat :=
  data.set idx (shaderStep (data.getD idx 0))

/-- Modelled from the spec: a dispatch of `g` work groups in x runs one
invocation per global id in `[0, g * local_size_x)`; each invocation touches
only its own element, so the dispatch's effect on the storage buffer is the
composition of all the invocations. -/
def runDispatch (g : Nat) (data : List Nat) : List Nat :=
  (List.range (g * local_size_x)).foldl runInvocation data

theorem foldl_runInvocation_length (ids : List Nat) (data : List Nat) :
    (ids.foldl runInvocation data).length = data.length := by
  induction ids generalizing data with
  | nil => rfl
  | cons x xs ih =>
    simp only [List.foldl_cons]
    rw [ih]
    simp [runInvocation]

theorem foldl_range_getElem_of_le (m : Nat) (data : List Nat) (i : Nat) (h : m ≤ i) :
    ((List.range m).foldl runInvocation data)[i]? = data[i]? := by
  induction m with
  | zero => rfl
  | succ k ih =>
    rw [List.range_succ, List.foldl_append]
    simp only [List.foldl_cons, List.foldl_nil]
    rw [runInvocation, List.getElem?_set_ne (by omega)]
    exact ih (by omega)

theorem foldl_range_getElem_of_lt (m : Nat) (data : List Nat) (i : Nat)
    (h : i < m) (hlen : i < data.length) :
    ((List.range m).foldl runInvocation data)[i]? = (data[i]?).map shaderStep := by
  induction m with
  | zero => omega
  | succ k ih =>
    rw [List.range_succ, List.foldl_append]
    simp only [List.foldl_cons, List.foldl_nil]
    by_cases hik : i < k
    · rw [runInvocation, List.getElem?_set_ne (by omega)]
      exact ih hik
    · have hik2 : i = k := by omega
      subst hik2
      have hprev : ((List.range i).foldl runInvocation data)[i]? = data[i]? :=
        foldl_range_getElem_of_le i data i (Nat.le_refl i)
      have hlen2 : i < ((List.range i).foldl runInvocation data).length := by
        rw [foldl_runInvocation_length]
        exact hlen
      rw [runInvocation, List.getElem?_set_self hlen2, List.getD_eq_getElem?_getD, hprev,
        List.getElem?_eq_getElem hlen]
      simp

/-- C2: dispatching the multiply-by-12 compute program with `g` work groups
over a buffer whose length equals `g * local_size_x` multiplies every element
whose product fits 32 bits exactly by 12 after submit and wait; the literal
scenario is `g = 1024` over contents `0..65536`, giving `i * 12` at every
index `i`. -/
theorem dispatch_multiplies (g i v : Nat) (data : List Nat)
    (hcover : data.length = g * local_size_x)
    (hv : data[i]? = some v)
    (hnowrap : v * 12 < 2 ^ 32) :
    (runDispatch g data)[i]? = some (v * 12) := by
  have hlen : i < data.length := by
    rcases List.getElem?_eq_some_iff.mp hv with ⟨h, _⟩
    exact h
  have hi : i < g * local_size_x := hcover ▸ hlen
  rw [runDispatch, foldl_range_getElem_of_lt _ _ _ hi hlen, hv]
  have h32 : (2 : Nat) ^ 32 = 4294967296 := by norm_num
  simp only [Option.map_some', shaderStep, Option.some.injEq]
  omega

/-- Witness for C2 at the literal scenario's buffer (contents `0..65536`,
1024 work groups) evaluated at index 7: the dispatched buffer holds `7 * 12`
there. -/
theorem dispatch_multiplies_witness :
    data_iter.length = 1024 * local_size_x ∧ data_iter[7]? = some 7 ∧
      7 * 12 < 2 ^ 32 ∧ (runDispatch 1024 data_iter)[7]? = some (7 * 12) := by
  have h1 : data_iter.length = 1024 * local_size_x := by
    simp [data_iter, local_size_x]
  have h2 : data_iter[7]? = some 7 := by
    unfold data_iter
    exact List.getElem?_range (by norm_num)
  have h3 : 7 * 12 < 2 ^ 32 := by norm_num
  exact ⟨h1, h2, h3, dispatch_multiplies 1024 7 7 data_iter h1 h2 h3⟩

/-- C8: the dispatched work-group count times the declared local size exactly
covers the element domain: 1024 × 64 = 65536, the number of buffer elements,
and every element index below 65536 is covered by exactly one
(work-group, local-invocation) pair. -/
theorem dispatch_covers_domain (i : Nat) (hi : i < 65536) :
    work_group_counts.1 * local_size_x = 65536 ∧
    data_iter.length = work_group_counts.1 * local_size_x ∧
    ∃! p : Nat × Nat, p.1 < work_group_counts.1 ∧ p.2 < local_size_x ∧
      p.1 * local_size_x + p.2 = i := by
  refine ⟨rfl, by simp [data_iter, work_group_counts, local_size_x], ?_⟩
  refine ⟨(i / 64, i % 64), ?_, ?_⟩
  · refine ⟨?_, ?_, ?_⟩ <;> simp [work_group_counts, local_size_x] <;> omega
  · rintro ⟨a, b⟩ ⟨ha, hb, hab⟩
    simp only [work_group_counts, local_size_x] at ha hb hab
    simp only [Prod.mk.injEq]
    constructor <;> omega

/-- Witness for C8 at the largest element index, 65535. -/
theorem dispatch_covers_domain_witness :
    65535 < 65536 ∧
    (work_group_counts.1 * local_size_x = 65536 ∧
      data_iter.length = work_group_counts.1 * local_size_x ∧
      ∃! p : Nat × Nat, p.1 < work_group_counts.1 ∧ p.2 < local_size_x ∧
        p.1 * local_size_x + p.2 = 65535) :=
  ⟨by norm_num, dispatch_covers_domain 65535 (by norm_num)⟩

/-- C9: for every element index below 65536 the shader's 32-bit
multiplication by 12 does not wrap: the stored value is the exact product,
and the largest product is 65535 × 12 = 786420 < 2^32, so the host-side
check against `n as u32 * 12` compares exact values. -/
theorem shader_no_wrap (i : Nat) (hi : i < 65536) :
    shaderStep i = i * 12 ∧ i * 12 ≤ 786420 := by
  have h32 : (2 : Nat) ^ 32 = 4294967296 := by norm_num
  constructor
  · unfold shaderStep
    apply Nat.mod_eq_of_lt
    omega
  · omega

/-- Witness for C9 at the largest element index: 65535 × 12 = 786420 is
stored unwrapped. -/
theorem shader_no_wrap_witness :
    65535 < 65536 ∧ (shaderStep 65535 = 65535 * 12 ∧ 65535 * 12 ≤ 786420) :=
  ⟨by norm_num, shader_no_wrap 65535 (by norm_num)⟩

end LearnVulkan
